import Mathlib

/-!
Shallow embedding of `scraper.py`: a one-shot batch scraper that fetches
paginated car-listing pages, discovers the page count from pagination
buttons, extracts per-listing fields, and writes the collected records to
a timestamped CSV file.  HTML pages are modelled by the element texts the
code reads (pagination button texts, listing sub-element texts); network
outcomes are modelled by an explicit `FetchOutcome`; `sys.exit(1)` and
propagating exceptions are modelled by `Except` error values.
-/

namespace Scraper

/-! ### Python string helpers

`str.split()` with no argument splits on runs of whitespace and discards
empty fields; `get_text(strip=True)` on a leaf element strips leading and
trailing whitespace of its text; `str.isdigit()` on the ASCII texts the
scraper sees holds exactly when the string is nonempty and all digits;
`int(...)` on such a string is the base-10 value. -/

def isWs (c : Char) : Bool := c.isWhitespace

/-- Accumulator-based splitter: `wordsAux cs acc` scans `cs`, building the
current word (reversed) in `acc`, emitting a word at each whitespace run. -/
def wordsAux : List Char → List Char → List String
  | [], acc => if acc.isEmpty then [] else [String.mk acc.reverse]
  | c :: cs, acc =>
    if isWs c then
      if acc.isEmpty then wordsAux cs [] else String.mk acc.reverse :: wordsAux cs []
    else wordsAux cs (c :: acc)

/-- Python `s.split()` (no separator): whitespace runs separate words. -/
def pySplit (s : String) : List String := wordsAux s.data []

def trimChars (l : List Char) : List Char :=
  ((l.dropWhile isWs).reverse.dropWhile isWs).reverse

/-- `get_text(strip=True)` on a leaf element: strip surrounding whitespace. -/
def pyStrip (s : String) : String := String.mk (trimChars s.data)

/-- `' '.join(words)`. -/
def joinWords (l : List String) : String := String.intercalate " " l

/-- Python `s.isdigit()` for ASCII text: nonempty and all characters digits. -/
def pyIsDigit (s : String) : Bool := !s.data.isEmpty && s.data.all Char.isDigit

/-- Python `int(s)` for a digit string: base-10 value. -/
def digitsToNat (s : String) : Nat :=
  s.data.foldl (fun n c => n * 10 + (c.toNat - 48)) 0

/-! ### Data model of the pages the scraper reads -/

/-- One listing block (`div.mod-b-card__footer`): the element texts
`get_car_attribute` reads.  `title` is the text of `a.mod-b-card__title`
(`none` when the anchor is absent); `other` is the list of `span` texts of
`div.mod-b-card__car-other` (`none` when that container is absent);
`price` and `instalment` are the texts of `div.mod-card__price__total`
and `div.mod-tooltipMonthPay` (`none` when absent). -/
structure ListingBlock where
  title : Option String
  other : Option (List String)
  price : Option String
  instalment : Option String
deriving DecidableEq

/-- One `li.mod-pagination__item`: the text of its first `button`, if any. -/
structure PaginationItem where
  button : Option String
deriving DecidableEq

/-- A parsed page: its pagination items and its listing blocks, in
document order. -/
structure Page where
  paginationItems : List PaginationItem
  listings : List ListingBlock
deriving DecidableEq

/-- Outcome of one HTTP GET: a successful response parsing to `page`, a
non-success status (`raise_for_status` raises `HTTPError`), or a
transport-level exception (not an `HTTPError`; propagates out). -/
inductive FetchOutcome where
  | success (page : Page)
  | httpError
  | transportError
deriving DecidableEq

/-- The site as seen by the run: the untargeted fetch (`get_html()`), and
the per-page-number fetch (`get_html(i)`). -/
structure Site where
  first : FetchOutcome
  byPage : Nat → FetchOutcome

/-- How a function call can abort the run: `sysExit` is `sys.exit(1)`
(a `SystemExit`, not caught by `except Exception`, process exits with
status 1); `exception` is an ordinary exception propagating to `main`'s
top-level handler. -/
inductive RunExit where
  | sysExit
  | exception
deriving DecidableEq

/-! ### The source functions -/

/-- `get_html`: on success returns the parsed document (never `None` —
`BeautifulSoup(response.text, ...)` is always an object); on `HTTPError`
calls `sys.exit(1)`; any other exception from `requests.get` propagates. -/
def get_html_result (r : FetchOutcome) : Except RunExit (Option Page) :=
  match r with
  | FetchOutcome.success p => Except.ok (some p)
  | FetchOutcome.httpError => Except.error RunExit.sysExit
  | FetchOutcome.transportError => Except.error RunExit.exception

/-- `get_page_number_list`: for each `li.mod-pagination__item`, if it has a
`button` whose text `isdigit()`, append `int(text)`. -/
def get_page_number_list (car_html : Page) : List Nat :=
  car_html.paginationItems.filterMap fun item =>
    match item.button with
    | some t => if pyIsDigit t then some (digitsToNat t) else none
    | none => none

/-- `get_max_page_number`: `max(page_number_list) if page_number_list else 1`. -/
def get_max_page_number (page_number_list : List Nat) : Nat :=
  match page_number_list with
  | [] => 1
  | x :: xs => xs.foldl Nat.max x

/-- `get_car_list`: the `div.mod-b-card__footer` blocks of the page. -/
def get_car_list (car_webpage : Page) : List ListingBlock := car_webpage.listings

/-- A car record: a Python dict modelled as key/value pairs in insertion
order (dicts preserve insertion order; headers are derived from it). -/
abbrev CarDict := List (String × String)

/-- `spans[i].get_text(strip=True) if len(spans) > i else 'None'`. -/
def spanAt (spans : List String) (i : Nat) : String :=
  match spans.get? i with
  | some s => pyStrip s
  | none => "None"

/-- `get_car_attribute`: builds the record.  A missing title, price or
monthly-instalment element makes `.get_text` raise `AttributeError` on
`None`, caught by the `except` which calls `sys.exit(1)` — modelled as
`Except.error ()`.  When `div.mod-b-card__car-other` is missing, the
`if car_mileage:` block is skipped and the three keys are never set. -/
def get_car_attribute (item : ListingBlock) : Except Unit CarDict :=
  match item.title, item.price, item.instalment with
  | some t, some p, some m =>
    let nameField := [("car_name", joinWords (pySplit (pyStrip t)))]
    let otherFields :=
      match item.other with
      | some spans =>
        [("car_mileage", spanAt spans 0),
         ("car_transmission", spanAt spans 1),
         ("car_location", spanAt spans 2)]
      | none => []
    Except.ok (nameField ++ otherFields ++
      [("car_price", pyStrip p), ("car_monthly_instalment", pyStrip m)])
  | _, _, _ => Except.error ()

/-- The CSV file `save_list_to_csv` writes: a header row and data rows. -/
structure CsvFile where
  header : List String
  rows : List (List String)
deriving DecidableEq

/-- `csv.DictWriter.writerow`: the value written for `key`, with the
default `restval` (`None`, serialized as the empty field) when the row
lacks the key. -/
def dictRowValue (row : CarDict) (key : String) : String :=
  match row.lookup key with
  | some v => v
  | none => ""

/-- `save_list_to_csv`: headers are the keys of the first record; one row
per record in order.  On an empty list, `list_of_car[0]` raises
`IndexError`; `DictWriter` raises `ValueError` when a row has a key
outside the fieldnames; both propagate — modelled as `Except.error ()`. -/
def save_list_to_csv (list_of_car : List CarDict) : Except Unit CsvFile :=
  match list_of_car with
  | [] => Except.error ()
  | first :: rest =>
    let fieldnames := first.map Prod.fst
    if (first :: rest).all (fun row => row.all fun kv => fieldnames.contains kv.fst) then
      Except.ok
        { header := fieldnames
          rows := (first :: rest).map fun row => fieldnames.map (dictRowValue row) }
    else Except.error ()

/-- Outcome of a whole run of `main`. -/
inductive RunOutcome where
  | wrote (filename : String) (file : CsvFile)
  | noData
  | initialFetchNone
  | exitEarly
  | loggedException
deriving DecidableEq

/-- The inner `for car in car_data_html` loop: extract every listing block,
in order; the first failing extraction exits the process (`sys.exit(1)`). -/
def extract_listings : List ListingBlock → Except RunExit (List CarDict)
  | [] => Except.ok []
  | b :: bs =>
    match get_car_attribute b with
    | Except.error _ => Except.error RunExit.sysExit
    | Except.ok r =>
      match extract_listings bs with
      | Except.error e => Except.error e
      | Except.ok rs => Except.ok (r :: rs)

/-- The `for i in range(1, max_page_number + 1)` loop of `main`: fetch each
page, skip it when the fetch result is `None`, else extract its listings
and append the records to the accumulator. -/
def page_loop (site : Site) : List Nat → List CarDict → Except RunExit (List CarDict)
  | [], acc => Except.ok acc
  | i :: rest, acc =>
    match get_html_result (site.byPage i) with
    | Except.error e => Except.error e
    | Except.ok none => page_loop site rest acc
    | Except.ok (some p) =>
      match extract_listings (get_car_list p) with
      | Except.error e => Except.error e
      | Except.ok recs => page_loop site rest (acc ++ recs)

/-- `main`, parameterized by the site and the timestamp string: compute the
filename, fetch the first page (ending quietly if it were `None`),
discover the page count, run the page loop, then persist when records were
collected.  `sys.exit(1)` anywhere ends the process with status 1
(`exitEarly`); any other exception reaches the top-level handler, which
logs it and returns normally without a file (`loggedException`). -/
def main (site : Site) (timestamp : String) : RunOutcome :=
  let filename := "car_" ++ timestamp ++ ".csv"
  match get_html_result site.first with
  | Except.error RunExit.sysExit => RunOutcome.exitEarly
  | Except.error RunExit.exception => RunOutcome.loggedException
  | Except.ok none => RunOutcome.initialFetchNone
  | Except.ok (some page1) =>
    match page_loop site
        (List.range' 1 (get_max_page_number (get_page_number_list page1))) [] with
    | Except.error RunExit.sysExit => RunOutcome.exitEarly
    | Except.error RunExit.exception => RunOutcome.loggedException
    | Except.ok recs =>
      if recs.isEmpty then RunOutcome.noData
      else
        match save_list_to_csv recs with
        | Except.ok file => RunOutcome.wrote filename file
        | Except.error _ => RunOutcome.loggedException

/-- The CSV content a run produced, if any. -/
def outcomeContent : RunOutcome → Option CsvFile
  | RunOutcome.wrote _ f => some f
  | _ => none

/-! ### Helper lemmas on the string and list operations -/

theorem wordsAux_of_allWs : ∀ (ws acc : List Char),
    (∀ c ∈ ws, isWs c = true) →
    wordsAux ws acc = if acc.isEmpty then [] else [String.mk acc.reverse]
  | [], _, _ => rfl
  | c :: cs, acc, h => by
    have hc : isWs c = true := h c (List.mem_cons_self _ _)
    have hcs : ∀ x ∈ cs, isWs x = true := fun x hx => h x (List.mem_cons_of_mem _ hx)
    have ih := wordsAux_of_allWs cs [] hcs
    by_cases ha : acc.isEmpty <;> simp [wordsAux, hc, ha, ih]

theorem wordsAux_append_ws : ∀ (m ws acc : List Char),
    (∀ c ∈ ws, isWs c = true) →
    wordsAux (m ++ ws) acc = wordsAux m acc
  | [], ws, acc, h => by
    rw [List.nil_append, wordsAux_of_allWs ws acc h]; rfl
  | c :: cs, ws, acc, h => by
    have ih1 := wordsAux_append_ws cs ws [] h
    have ih2 := wordsAux_append_ws cs ws (c :: acc) h
    by_cases hc : isWs c <;> by_cases ha : acc.isEmpty <;>
      simp [wordsAux, hc, ha, ih1, ih2]

theorem wordsAux_dropWhile (l : List Char) :
    wordsAux (l.dropWhile isWs) [] = wordsAux l [] := by
  induction l with
  | nil => rfl
  | cons c cs ih =>
    by_cases hc : isWs c <;> simp [List.dropWhile_cons, wordsAux, hc, ih]

/-- Stripping surrounding whitespace does not change the word list:
`s.strip().split() = s.split()`. -/
theorem pySplit_pyStrip (s : String) : pySplit (pyStrip s) = pySplit s := by
  show wordsAux (trimChars s.data) [] = wordsAux s.data []
  unfold trimChars
  rw [← wordsAux_dropWhile s.data]
  set m := s.data.dropWhile isWs with hm
  have hws : ∀ c ∈ (m.reverse.takeWhile isWs).reverse, isWs c = true := by
    intro c hc
    exact List.mem_takeWhile_imp (List.mem_reverse.mp hc)
  have happ := wordsAux_append_ws ((m.reverse.dropWhile isWs).reverse)
      ((m.reverse.takeWhile isWs).reverse) [] hws
  have hsplit : (m.reverse.dropWhile isWs).reverse ++ (m.reverse.takeWhile isWs).reverse = m := by
    rw [← List.reverse_append, List.takeWhile_append_dropWhile, List.reverse_reverse]
  rw [← happ, hsplit]

theorem le_foldl_max (xs : List Nat) (x : Nat) : x ≤ xs.foldl Nat.max x := by
  induction xs generalizing x with
  | nil => exact Nat.le_refl x
  | cons y ys ih => exact Nat.le_trans (Nat.le_max_left x y) (ih (Nat.max x y))

theorem mem_le_foldl_max (xs : List Nat) (x n : Nat) (h : n ∈ xs) :
    n ≤ xs.foldl Nat.max x := by
  induction xs generalizing x with
  | nil => cases h
  | cons y ys ih =>
    rcases List.mem_cons.mp h with rfl | h2
    · exact Nat.le_trans (Nat.le_max_right x n) (le_foldl_max ys (Nat.max x n))
    · exact ih (Nat.max x y) h2

theorem foldl_max_mem (xs : List Nat) (x : Nat) :
    xs.foldl Nat.max x = x ∨ xs.foldl Nat.max x ∈ xs := by
  induction xs generalizing x with
  | nil => exact Or.inl rfl
  | cons y ys ih =>
    rcases ih (Nat.max x y) with h | h
    · rcases Nat.le_total x y with hxy | hyx
      · right
        have : ys.foldl Nat.max (Nat.max x y) = y := by rw [h]; exact Nat.max_eq_right hxy
        simp only [List.foldl_cons, this]
        exact List.mem_cons_self _ _
      · left
        have : ys.foldl Nat.max (Nat.max x y) = x := by rw [h]; exact Nat.max_eq_left hyx
        simpa only [List.foldl_cons] using this
    · right
      simp only [List.foldl_cons]
      exact List.mem_cons_of_mem _ h

/-- The first failing extraction in a page makes the whole inner loop end
in `sys.exit(1)`. -/
theorem extract_listings_error : ∀ (l : List ListingBlock) (b : ListingBlock),
    b ∈ l → get_car_attribute b = Except.error () →
    extract_listings l = Except.error RunExit.sysExit
  | [], b, hmem, _ => absurd hmem (List.not_mem_nil b)
  | c :: cs, b, hmem, hb => by
    rcases List.mem_cons.mp hmem with rfl | h2
    · simp [extract_listings, hb]
    · cases hc : get_car_attribute c with
      | error e => simp [extract_listings, hc]
      | ok r => simp [extract_listings, hc, extract_listings_error cs b h2 hb]

/-! ### Concrete inputs used by counterexamples and witnesses -/

/-- A listing block whose title, price and instalment elements are present
but whose other-details container is absent. -/
def blockNoOther : ListingBlock := ⟨some "a", none, some "1", some "2"⟩

/-- A listing block with no title element. -/
def blockNoTitle : ListingBlock := ⟨none, some ["x"], some "1", some "2"⟩

/-- A page whose pagination buttons read 2, 5, 3. -/
def page253 : Page := ⟨[⟨some "2"⟩, ⟨some "5"⟩, ⟨some "3"⟩], []⟩

/-- A page whose single pagination button reads 0. -/
def pageZero : Page := ⟨[⟨some "0"⟩], []⟩

/-! ### C1: sentinel keys when the other-details container is missing -/

/-- C1 counterexample: for a listing block whose title, price and
monthly-instalment elements are present but whose other-details container
is missing entirely, the record `get_car_attribute` returns does NOT
contain the keys car_mileage, car_transmission, car_location at all — they
are omitted, not set to the sentinel string "None" as the claim states. -/
theorem c1_missing_container_counterexample :
    get_car_attribute blockNoOther =
      Except.ok [("car_name", "a"), ("car_price", "1"), ("car_monthly_instalment", "2")] ∧
    ([("car_name", "a"), ("car_price", "1"), ("car_monthly_instalment", "2")] : CarDict).lookup
      "car_mileage" = none ∧
    ([("car_name", "a"), ("car_price", "1"), ("car_monthly_instalment", "2")] : CarDict).lookup
      "car_transmission" = none ∧
    ([("car_name", "a"), ("car_price", "1"), ("car_monthly_instalment", "2")] : CarDict).lookup
      "car_location" = none := by
  exact ⟨rfl, rfl, rfl, rfl⟩

/-- C1 (amended): for every listing block whose title, price and
monthly-instalment elements are present, when the other-details container
is present the record contains car_mileage, car_transmission and
car_location, each equal to the corresponding sub-element text when it
exists and to the sentinel "None" otherwise; when the container is missing
entirely, the record omits all three keys. -/
theorem c1_other_details_fields (b : ListingBlock) (t p m : String)
    (ht : b.title = some t) (hp : b.price = some p) (hm : b.instalment = some m) :
    (b.other = none →
      get_car_attribute b = Except.ok
        [("car_name", joinWords (pySplit (pyStrip t))),
         ("car_price", pyStrip p), ("car_monthly_instalment", pyStrip m)]) ∧
    (∀ spans, b.other = some spans →
      get_car_attribute b = Except.ok
        [("car_name", joinWords (pySplit (pyStrip t))),
         ("car_mileage", spanAt spans 0),
         ("car_transmission", spanAt spans 1),
         ("car_location", spanAt spans 2),
         ("car_price", pyStrip p), ("car_monthly_instalment", pyStrip m)]) := by
  rcases b with ⟨ot, oo, op, om⟩
  obtain rfl : ot = some t := ht
  obtain rfl : op = some p := hp
  obtain rfl : om = some m := hm
  constructor
  · rintro rfl
    rfl
  · rintro spans rfl
    rfl

/-- C1 witness: the amended statement evaluated on a concrete block with a
one-element other-details container. -/
theorem c1_other_details_fields_witness :
    get_car_attribute (⟨some "Myvi", some ["10k"], some "RM 30,000", some "RM 300"⟩ : ListingBlock) =
      Except.ok
        [("car_name", "Myvi"), ("car_mileage", "10k"), ("car_transmission", "None"),
         ("car_location", "None"), ("car_price", "RM 30,000"),
         ("car_monthly_instalment", "RM 300")] := by
  have h := (c1_other_details_fields
    (⟨some "Myvi", some ["10k"], some "RM 30,000", some "RM 300"⟩ : ListingBlock)
    "Myvi" "RM 30,000" "RM 300" rfl rfl rfl).2 ["10k"] rfl
  exact h

/-! ### C2: pagination discovery returns the maximum numeric button -/

/-- C2: pagination discovery (`get_page_number_list` then
`get_max_page_number`) returns 1 when no pagination button text is purely
numeric, and otherwise returns a value that is among the numeric button
values and is an upper bound of all of them — i.e. their maximum. -/
theorem c2_pagination_max (page : Page) :
    (get_page_number_list page = [] →
      get_max_page_number (get_page_number_list page) = 1) ∧
    (get_page_number_list page ≠ [] →
      get_max_page_number (get_page_number_list page) ∈ get_page_number_list page ∧
      ∀ n ∈ get_page_number_list page, n ≤ get_max_page_number (get_page_number_list page)) := by
  constructor
  · intro h; rw [h]; rfl
  · intro h
    cases hl : get_page_number_list page with
    | nil => exact absurd hl h
    | cons x xs =>
      refine ⟨?_, ?_⟩
      · show xs.foldl Nat.max x ∈ x :: xs
        rcases foldl_max_mem xs x with h2 | h2
        · rw [h2]; exact List.mem_cons_self _ _
        · exact List.mem_cons_of_mem _ h2
      · intro n hn
        show n ≤ xs.foldl Nat.max x
        rcases List.mem_cons.mp hn with rfl | h2
        · exact le_foldl_max xs n
        · exact mem_le_foldl_max xs x n h2

/-- C2 witness: on a page with numeric buttons 2, 5, 3 the discovered
maximum is 5 and it is one of the button values. -/
theorem c2_pagination_max_witness :
    get_max_page_number (get_page_number_list page253) ∈ get_page_number_list page253 ∧
    get_max_page_number (get_page_number_list page253) = 5 :=
  ⟨((c2_pagination_max page253).2 (by decide)).1, by decide⟩

/-! ### C3: the discovered page count versus the `≥ 1` contract -/

/-- C3 counterexample: on a page whose single pagination button text is
"0" (purely numeric), pagination discovery returns 0, violating the
contract `discoverMaxPage(page) -> integer ≥ 1`. -/
theorem c3_zero_button_counterexample :
    get_max_page_number (get_page_number_list pageZero) < 1 := by decide

/-- C3 (amended): pagination discovery returns an integer ≥ 1 for every
page whose purely-numeric pagination button texts all have value ≥ 1; a
button text denoting 0 makes it return 0. -/
theorem c3_ge_one_when_buttons_positive (page : Page)
    (hpos : ∀ n ∈ get_page_number_list page, 1 ≤ n) :
    1 ≤ get_max_page_number (get_page_number_list page) := by
  cases hl : get_page_number_list page with
  | nil => exact Nat.le_refl 1
  | cons x xs =>
    have hx : 1 ≤ x := hpos x (by rw [hl]; exact List.mem_cons_self _ _)
    exact Nat.le_trans hx (le_foldl_max xs x)

/-- C3 witness: the amended statement evaluated on the page with buttons
2, 5, 3. -/
theorem c3_ge_one_witness :
    1 ≤ get_max_page_number (get_page_number_list page253) :=
  c3_ge_one_when_buttons_positive page253 (by decide)

/-! ### C4: missing required element aborts the whole run -/

/-- C4: for every listing block whose title, price or monthly-instalment
element is absent, `get_car_attribute` hits the except-branch that calls
`sys.exit(1)` (modelled `Except.error ()`), and the extraction loop of any
page containing that block ends the whole run in `sys.exit(1)` rather than
skipping the single listing and continuing. -/
theorem c4_missing_required_aborts (b : ListingBlock) (l : List ListingBlock)
    (hmiss : b.title = none ∨ b.price = none ∨ b.instalment = none)
    (hmem : b ∈ l) :
    get_car_attribute b = Except.error () ∧
    extract_listings l = Except.error RunExit.sysExit := by
  have hb : get_car_attribute b = Except.error () := by
    rcases b with ⟨ot, oo, op, om⟩
    rcases ot with _ | t <;> rcases op with _ | p <;> rcases om with _ | m <;>
      first
        | rfl
        | (rcases hmiss with h | h | h <;> simp at h)
  exact ⟨hb, extract_listings_error l b hmem hb⟩

/-- C4 witness: a page whose only listing block lacks a title element
makes the run exit. -/
theorem c4_missing_required_aborts_witness :
    get_car_attribute blockNoTitle = Except.error () ∧
    extract_listings [blockNoTitle] = Except.error RunExit.sysExit :=
  c4_missing_required_aborts blockNoTitle [blockNoTitle] (Or.inl rfl)
    (List.mem_cons_self _ _)

/-! ### C7: car_name is whitespace-normalized -/

/-- C7: for every listing block with a title element whose extraction
succeeds, the car_name field equals the title text split on whitespace and
rejoined with single spaces. -/
theorem c7_car_name_normalized (b : ListingBlock) (t : String) (r : CarDict)
    (ht : b.title = some t) (hok : get_car_attribute b = Except.ok r) :
    r.lookup "car_name" = some (joinWords (pySplit t)) := by
  rcases b with ⟨ot, oo, op, om⟩
  obtain rfl : ot = some t := ht
  rcases op with _ | p
  · exact absurd hok (by rcases oo with _ | sp <;> simp [get_car_attribute])
  rcases om with _ | m
  · exact absurd hok (by rcases oo with _ | sp <;> simp [get_car_attribute])
  cases oo with
  | none =>
    obtain rfl := Except.ok.inj hok
    show some (joinWords (pySplit (pyStrip t))) = some (joinWords (pySplit t))
    rw [pySplit_pyStrip]
  | some spans =>
    obtain rfl := Except.ok.inj hok
    show some (joinWords (pySplit (pyStrip t))) = some (joinWords (pySplit t))
    rw [pySplit_pyStrip]

/-- C7 witness: the irregular title text "Myvi   1.3  X" yields
car_name = "Myvi 1.3 X". -/
theorem c7_car_name_normalized_witness :
    ([("car_name", joinWords (pySplit (pyStrip "Myvi   1.3  X"))),
      ("car_price", pyStrip "RM 30,000"),
      ("car_monthly_instalment", pyStrip "RM 300")] : CarDict).lookup "car_name" =
      some "Myvi 1.3 X" := by
  have h := c7_car_name_normalized
    (⟨some "Myvi   1.3  X", none, some "RM 30,000", some "RM 300"⟩ : ListingBlock)
    "Myvi   1.3  X"
    [("car_name", joinWords (pySplit (pyStrip "Myvi   1.3  X"))),
     ("car_price", pyStrip "RM 30,000"),
     ("car_monthly_instalment", pyStrip "RM 300")]
    rfl rfl
  exact h

/-! ### C6: no persistence on an empty record set -/

/-- C6: when the page loop ends with an empty accumulated record list, the
orchestrator does not invoke `save_list_to_csv`: the run ends in the
zero-records branch with no file written. -/
theorem c6_empty_run_no_persist (site : Site) (ts : String) (pg : Page)
    (hfirst : site.first = FetchOutcome.success pg)
    (hempty : page_loop site
      (List.range' 1 (get_max_page_number (get_page_number_list pg))) [] =
        Except.ok []) :
    main site ts = RunOutcome.noData := by
  unfold main
  rw [hfirst]
  dsimp only [get_html_result]
  rw [hempty]
  rfl

/-- An empty stub page and the site showing only it. -/
def emptyPage : Page := ⟨[], []⟩

def siteEmpty : Site :=
  ⟨FetchOutcome.success emptyPage, fun _ => FetchOutcome.success emptyPage⟩

/-- C6 witness: a site with no listings at all ends in the zero-records
branch. -/
theorem c6_empty_run_no_persist_witness :
    main siteEmpty "20240101000000" = RunOutcome.noData :=
  c6_empty_run_no_persist siteEmpty "20240101000000" emptyPage rfl rfl

/-! ### C8: record content is independent of the timestamp -/

/-- C8: the pipeline is deterministic in its input pages — two runs over
the same site differ only in the timestamp-derived filename, never in the
CSV content produced from the accumulated records. -/
theorem c8_content_timestamp_independent (site : Site) (ts1 ts2 : String) :
    outcomeContent (main site ts1) = outcomeContent (main site ts2) := by
  unfold main
  cases get_html_result site.first with
  | error e => cases e <;> rfl
  | ok op =>
    cases op with
    | none => rfl
    | some pg =>
      dsimp only
      cases page_loop site
          (List.range' 1 (get_max_page_number (get_page_number_list pg))) [] with
      | error e => cases e <;> rfl
      | ok recs =>
        cases h : recs.isEmpty with
        | true => simp [h, outcomeContent]
        | false =>
          simp only [h]
          cases save_list_to_csv recs <;> rfl

/-! ### C9: the None-checks in the orchestrator are dead code -/

/-- Whether a `get_html` result is a successful return of `None`. -/
def okIsNone : Except RunExit (Option Page) → Bool
  | Except.ok none => true
  | _ => false

/-- `get_html` with the unreachable `None` return removed: on success it
yields the page itself. -/
def get_html_page (r : FetchOutcome) : Except RunExit Page :=
  match r with
  | FetchOutcome.success p => Except.ok p
  | FetchOutcome.httpError => Except.error RunExit.sysExit
  | FetchOutcome.transportError => Except.error RunExit.exception

/-- The page loop of `main` with the `continue`-on-`None` check removed. -/
def page_loop_nc (site : Site) : List Nat → List CarDict → Except RunExit (List CarDict)
  | [], acc => Except.ok acc
  | i :: rest, acc =>
    match get_html_page (site.byPage i) with
    | Except.error e => Except.error e
    | Except.ok p =>
      match extract_listings (get_car_list p) with
      | Except.error e => Except.error e
      | Except.ok recs => page_loop_nc site rest (acc ++ recs)

/-- `main` with both unusable-fetch checks (the quiet run-ending check
after the discovery fetch and the skip-and-continue check in the page
loop) removed. -/
def mainNoChecks (site : Site) (timestamp : String) : RunOutcome :=
  let filename := "car_" ++ timestamp ++ ".csv"
  match get_html_page site.first with
  | Except.error RunExit.sysExit => RunOutcome.exitEarly
  | Except.error RunExit.exception => RunOutcome.loggedException
  | Except.ok page1 =>
    match page_loop_nc site
        (List.range' 1 (get_max_page_number (get_page_number_list page1))) [] with
    | Except.error RunExit.sysExit => RunOutcome.exitEarly
    | Except.error RunExit.exception => RunOutcome.loggedException
    | Except.ok recs =>
      if recs.isEmpty then RunOutcome.noData
      else
        match save_list_to_csv recs with
        | Except.ok file => RunOutcome.wrote filename file
        | Except.error _ => RunOutcome.loggedException

theorem page_loop_eq_nc (site : Site) : ∀ (idxs : List Nat) (acc : List CarDict),
    page_loop site idxs acc = page_loop_nc site idxs acc
  | [], _ => rfl
  | i :: rest, acc => by
    simp only [page_loop, page_loop_nc, get_html_result, get_html_page]
    cases site.byPage i with
    | success p =>
      dsimp only
      cases extract_listings (get_car_list p) with
      | error e => rfl
      | ok recs =>
        dsimp only
        exact page_loop_eq_nc site rest (acc ++ recs)
    | httpError => rfl
    | transportError => rfl

/-- C9: `get_html` never returns `None` — every call yields a parsed page,
exits the process on an HTTP-status error, or propagates a transport
exception — so removing both unusable-fetch branches from the orchestrator
(the quiet run-ending check after the discovery fetch and the
skip-and-continue check inside the page loop) never changes the outcome of
any run: they are unreachable. -/
theorem c9_fetch_never_none_checks_dead :
    (∀ r, okIsNone (get_html_result r) = false) ∧
    (∀ (site : Site) (ts : String), main site ts = mainNoChecks site ts) := by
  constructor
  · intro r; cases r <;> rfl
  · intro site ts
    unfold main mainNoChecks
    cases site.first with
    | success p =>
      simp only [get_html_result, get_html_page]
      rw [page_loop_eq_nc]
    | httpError => rfl
    | transportError => rfl

/-! ### C10: a failed run discards collected records and writes no file -/

/-- C10: persistence is all-or-nothing — whenever the page loop aborts
(a fetch failure or an extraction `sys.exit(1)`, regardless of how many
records were already accumulated), `save_list_to_csv` is never reached and
the run produces no output file. -/
theorem c10_failed_run_writes_nothing (site : Site) (ts : String) (pg : Page)
    (e : RunExit)
    (hfirst : site.first = FetchOutcome.success pg)
    (hloop : page_loop site
      (List.range' 1 (get_max_page_number (get_page_number_list pg))) [] =
        Except.error e) :
    outcomeContent (main site ts) = none := by
  unfold main
  rw [hfirst]
  dsimp only [get_html_result]
  rw [hloop]
  cases e <;> rfl

/-- A well-formed listing block used by the end-to-end witnesses. -/
def goodBlock : ListingBlock := ⟨some "Myvi", some ["10k", "Auto", "KL"], some "RM 30,000", some "RM 300"⟩

/-- A page advertising two result pages, with one well-formed listing. -/
def pageTwoOfTwo : Page := ⟨[⟨some "1"⟩, ⟨some "2"⟩], [goodBlock]⟩

/-- A site whose page 1 yields a record but whose page-2 fetch raises a
transport exception. -/
def siteFailPage2 : Site :=
  ⟨FetchOutcome.success pageTwoOfTwo,
   fun i => if i = 2 then FetchOutcome.transportError else FetchOutcome.success pageTwoOfTwo⟩

/-- C10 witness: page 1 contributes a record, the page-2 fetch fails, and
the run ends with no file written. -/
theorem c10_failed_run_writes_nothing_witness :
    outcomeContent (main siteFailPage2 "20240101000000") = none :=
  c10_failed_run_writes_nothing siteFailPage2 "20240101000000" pageTwoOfTwo
    RunExit.exception rfl rfl

/-! ### C5: end-to-end run over a two-page stub site -/

/-- The record `get_car_attribute` builds for a listing block whose four
element groups are all present. -/
def fullRecord (t : String) (sp : List String) (pr mi : String) : CarDict :=
  [("car_name", joinWords (pySplit (pyStrip t))),
   ("car_mileage", spanAt sp 0),
   ("car_transmission", spanAt sp 1),
   ("car_location", spanAt sp 2),
   ("car_price", pyStrip pr),
   ("car_monthly_instalment", pyStrip mi)]

/-- The CSV data row serialized from such a record. -/
def csvRowOf (t : String) (sp : List String) (pr mi : String) : List String :=
  [joinWords (pySplit (pyStrip t)), spanAt sp 0, spanAt sp 1, spanAt sp 2,
   pyStrip pr, pyStrip mi]

/-- The header row of the output file. -/
def canonicalHeader : List String :=
  ["car_name", "car_mileage", "car_transmission", "car_location",
   "car_price", "car_monthly_instalment"]

/-- C5: for a site with 2 pages where page 1 exposes pagination buttons
1 and 2 and three well-formed listing blocks and page 2 exposes two
well-formed listing blocks, the run writes a file with header columns
exactly car_name, car_mileage, car_transmission, car_location, car_price,
car_monthly_instalment in that order and exactly 5 data rows, ordered by
ascending page index and, within a page, by document order. -/
theorem c5_two_page_end_to_end (site : Site) (pg1 pg2 : Page) (ts : String)
    (t1 pr1 mi1 t2 pr2 mi2 t3 pr3 mi3 t4 pr4 mi4 t5 pr5 mi5 : String)
    (sp1 sp2 sp3 sp4 sp5 : List String)
    (hfirst : site.first = FetchOutcome.success pg1)
    (h1 : site.byPage 1 = FetchOutcome.success pg1)
    (h2 : site.byPage 2 = FetchOutcome.success pg2)
    (hpag : pg1.paginationItems = [⟨some "1"⟩, ⟨some "2"⟩])
    (hl1 : pg1.listings =
      [⟨some t1, some sp1, some pr1, some mi1⟩,
       ⟨some t2, some sp2, some pr2, some mi2⟩,
       ⟨some t3, some sp3, some pr3, some mi3⟩])
    (hl2 : pg2.listings =
      [⟨some t4, some sp4, some pr4, some mi4⟩,
       ⟨some t5, some sp5, some pr5, some mi5⟩]) :
    main site ts = RunOutcome.wrote ("car_" ++ ts ++ ".csv")
      ⟨canonicalHeader,
       [csvRowOf t1 sp1 pr1 mi1, csvRowOf t2 sp2 pr2 mi2, csvRowOf t3 sp3 pr3 mi3,
        csvRowOf t4 sp4 pr4 mi4, csvRowOf t5 sp5 pr5 mi5]⟩ := by
  have hex1 : extract_listings pg1.listings = Except.ok
      [fullRecord t1 sp1 pr1 mi1, fullRecord t2 sp2 pr2 mi2, fullRecord t3 sp3 pr3 mi3] := by
    rw [hl1]; rfl
  have hex2 : extract_listings pg2.listings = Except.ok
      [fullRecord t4 sp4 pr4 mi4, fullRecord t5 sp5 pr5 mi5] := by
    rw [hl2]; rfl
  have hnums : get_page_number_list pg1 = [1, 2] := by
    unfold get_page_number_list
    rw [hpag]
    rfl
  have hloop : page_loop site [1, 2] [] = Except.ok
      [fullRecord t1 sp1 pr1 mi1, fullRecord t2 sp2 pr2 mi2, fullRecord t3 sp3 pr3 mi3,
       fullRecord t4 sp4 pr4 mi4, fullRecord t5 sp5 pr5 mi5] := by
    simp only [page_loop, get_html_result, get_car_list, h1, h2, hex1, hex2]
    rfl
  unfold main
  rw [hfirst]
  dsimp only [get_html_result]
  rw [hnums]
  rw [show List.range' 1 (get_max_page_number [1, 2]) = [1, 2] from rfl]
  rw [hloop]
  rfl

/-- The two stub pages and the stub site of the end-to-end witness. -/
def c5pg1 : Page := ⟨[⟨some "1"⟩, ⟨some "2"⟩],
  [⟨some "A 1", some ["1k", "Auto", "KL"], some "10", some "1"⟩,
   ⟨some "B 2", some ["2k", "Auto", "PJ"], some "20", some "2"⟩,
   ⟨some "C 3", some ["3k", "Manual", "JB"], some "30", some "3"⟩]⟩

def c5pg2 : Page := ⟨[],
  [⟨some "D 4", some ["4k", "Auto", "KL"], some "40", some "4"⟩,
   ⟨some "E 5", some ["5k"], some "50", some "5"⟩]⟩

def c5site : Site := ⟨FetchOutcome.success c5pg1,
  fun i => if i = 1 then FetchOutcome.success c5pg1
           else if i = 2 then FetchOutcome.success c5pg2
           else FetchOutcome.transportError⟩

/-- C5 witness: the end-to-end theorem evaluated on a concrete stub site
with 3 listings on page 1 and 2 listings on page 2. -/
theorem c5_two_page_end_to_end_witness :
    main c5site "20240101000000" = RunOutcome.wrote ("car_" ++ "20240101000000" ++ ".csv")
      ⟨canonicalHeader,
       [csvRowOf "A 1" ["1k", "Auto", "KL"] "10" "1",
        csvRowOf "B 2" ["2k", "Auto", "PJ"] "20" "2",
        csvRowOf "C 3" ["3k", "Manual", "JB"] "30" "3",
        csvRowOf "D 4" ["4k", "Auto", "KL"] "40" "4",
        csvRowOf "E 5" ["5k"] "50" "5"]⟩ :=
  c5_two_page_end_to_end c5site c5pg1 c5pg2 "20240101000000"
    "A 1" "10" "1" "B 2" "20" "2" "C 3" "30" "3" "D 4" "40" "4" "E 5" "50" "5"
    ["1k", "Auto", "KL"] ["2k", "Auto", "PJ"] ["3k", "Manual", "JB"]
    ["4k", "Auto", "KL"] ["5k"]
    rfl rfl rfl rfl rfl rfl

end Scraper
